import Mathlib

/-!
Verification of the ethBenchmark scoring and verdict engine.

This file shallowly embeds the scoring pipeline of the repository:
`internal/report/report.go` (piecewise-linear scorer, category and overall
aggregation, verdict classifier), `internal/benchmark/config.go` (time budget
allocator) and the setup-failure and rate-derivation paths of the probes in
`internal/cpu` and `internal/disk`.

Modelling conventions:
- Go `float64` values are modelled as exact rationals (`ℚ`); the weighted sums
  and piecewise-linear interpolations under scrutiny are small algebraic
  expressions for which the spec states real-arithmetic contracts.
- Go `int` / `int64` / `time.Duration` are modelled as `ℤ` (nanoseconds for
  durations); Go integer division truncates toward zero, which is `Int.tdiv`.
- A Go float division whose denominator is zero yields NaN or an infinity;
  the result of such a division is modelled as `Option ℚ`, with `none`
  standing for the non-finite artifact.
- Go conversion `int(x)` of a float truncates toward zero (`goTrunc`).
-/

namespace EthBenchmark

/-- Truncation toward zero of a rational, as the Go conversion `int(x)`
of a `float64` to `int` behaves. -/
def goTrunc (q : ℚ) : ℤ :=
  if 0 ≤ q then ⌊q⌋ else ⌈q⌉

/-- A Go float64 division: `none` models the NaN or infinity produced when
the denominator is zero. -/
def goFloatDiv (x y : ℚ) : Option ℚ :=
  if y = 0 then none else some (x / y)

/-! ### Data model, from `internal/types/types.go` -/

/-- `types.KeccakResult`. -/
structure KeccakResult where
  HashesPerSecond : ℚ
  TotalHashes : ℕ
  DataProcessedMB : ℚ
  Duration : ℤ
  Rating : String
  deriving Repr, DecidableEq

/-- `types.ECDSAResult`. -/
structure ECDSAResult where
  SignaturesPerSecond : ℚ
  VerificationsPerSecond : ℚ
  RecoveriesPerSecond : ℚ
  Duration : ℤ
  Rating : String
  deriving Repr, DecidableEq

/-- `types.BLSResult`. -/
structure BLSResult where
  SignaturesPerSecond : ℚ
  VerificationsPerSecond : ℚ
  AggregationsPerSecond : ℚ
  Duration : ℤ
  Rating : String
  deriving Repr, DecidableEq

/-- `types.BN256Result`. -/
structure BN256Result where
  G1AddsPerSecond : ℚ
  G1ScalarMulsPerSecond : ℚ
  PairingsPerSecond : ℚ
  Duration : ℤ
  Rating : String
  deriving Repr, DecidableEq

/-- `types.CPUResults`. -/
structure CPUResults where
  Keccak : KeccakResult
  ECDSA : ECDSAResult
  BLS : BLSResult
  BN256 : BN256Result
  deriving Repr, DecidableEq

/-- `types.TrieResult`. -/
structure TrieResult where
  InsertsPerSecond : ℚ
  LookupsPerSecond : ℚ
  HashesPerSecond : ℚ
  PeakMemoryMB : ℚ
  Duration : ℤ
  Rating : String
  deriving Repr, DecidableEq

/-- `types.PoolResult`. -/
structure PoolResult where
  AllocationsPerSecond : ℚ
  ReusesPerSecond : ℚ
  MemoryChurnMB : ℚ
  Duration : ℤ
  Rating : String
  deriving Repr, DecidableEq

/-- `types.StateCacheResult` (the source field `HitRatio` is rendered here
as `HitFraction`). -/
structure StateCacheResult where
  CacheHitsPerSecond : ℚ
  CacheMissesPerSecond : ℚ
  HitFraction : ℚ
  ThroughputMBPerSec : ℚ
  Duration : ℤ
  Rating : String
  deriving Repr, DecidableEq

/-- `types.MemoryResults`. -/
structure MemoryResults where
  Trie : TrieResult
  Pool : PoolResult
  StateCache : StateCacheResult
  deriving Repr, DecidableEq

/-- `types.SequentialResult`. -/
structure SequentialResult where
  WriteSpeedMBps : ℚ
  ReadSpeedMBps : ℚ
  Duration : ℤ
  Rating : String
  deriving Repr, DecidableEq

/-- `types.RandomResult`. -/
structure RandomResult where
  ReadIOPS : ℚ
  WriteIOPS : ℚ
  AvgLatencyUs : ℚ
  Duration : ℤ
  Rating : String
  deriving Repr, DecidableEq

/-- `types.BatchResult`. -/
structure BatchResult where
  BatchesPerSecond : ℚ
  ThroughputMBps : ℚ
  AvgBatchLatencyMs : ℚ
  Duration : ℤ
  Rating : String
  deriving Repr, DecidableEq

/-- `types.DiskResults`. -/
structure DiskResults where
  Sequential : SequentialResult
  Random : RandomResult
  Batch : BatchResult
  deriving Repr, DecidableEq

/-- `types.Results`. -/
structure Results where
  CPU : CPUResults
  Memory : MemoryResults
  Disk : DiskResults
  deriving Repr, DecidableEq

/-- `report.Summary`. -/
structure Summary where
  CPUScore : ℤ
  MemoryScore : ℤ
  DiskScore : ℤ
  TotalScore : ℤ
  deriving Repr, DecidableEq

/-- `report.Verdict`. -/
structure Verdict where
  OverallScore : ℤ
  ExecutionClient : String
  ConsensusClient : String
  Recommendations : List String
  deriving Repr, DecidableEq

/-! ### Scorer and aggregation, from `internal/report/report.go` -/

/-- `scoreMetric` (report.go lines 148 to 161): converts a metric value to a
0 to 100 score by piecewise-linear interpolation over four breakpoints. -/
def scoreMetric (value poor marginal good excellent : ℚ) : ℚ :=
  if value ≥ excellent then 100
  else if value ≥ good then 75 + 25 * (value - good) / (excellent - good)
  else if value ≥ marginal then 50 + 25 * (value - marginal) / (good - marginal)
  else if value ≥ poor then 25 + 25 * (value - poor) / (marginal - poor)
  else 25 * value / poor

/-- `calculateCPUScore` (report.go lines 84 to 104). -/
def calculateCPUScore (cpu : CPUResults) : ℤ :=
  goTrunc (scoreMetric cpu.Keccak.HashesPerSecond 50000 100000 200000 500000 * 0.25
    + scoreMetric cpu.ECDSA.VerificationsPerSecond 250 500 1000 2000 * 0.35
    + scoreMetric cpu.BLS.VerificationsPerSecond 50 100 200 500 * 0.25
    + scoreMetric cpu.BN256.PairingsPerSecond 10 25 50 100 * 0.15)

/-- `calculateMemoryScore` (report.go lines 107 to 124). -/
def calculateMemoryScore (mem : MemoryResults) : ℤ :=
  goTrunc (scoreMetric mem.Trie.InsertsPerSecond 5000 10000 20000 50000 * 0.40
    + scoreMetric (mem.Pool.AllocationsPerSecond + mem.Pool.ReusesPerSecond)
        50000 100000 200000 500000 * 0.30
    + scoreMetric mem.StateCache.CacheHitsPerSecond 50000 100000 200000 500000 * 0.30)

/-- `calculateDiskScore` (report.go lines 127 to 145). -/
def calculateDiskScore (disk : DiskResults) : ℤ :=
  goTrunc (scoreMetric ((disk.Sequential.WriteSpeedMBps + disk.Sequential.ReadSpeedMBps) / 2)
        50 100 200 400 * 0.30
    + scoreMetric ((disk.Random.ReadIOPS + disk.Random.WriteIOPS) / 2)
        5000 10000 20000 50000 * 0.45
    + scoreMetric disk.Batch.ThroughputMBps 10 25 50 100 * 0.25)

/-- The overall-score expression of `calculateSummary` (report.go line 73):
`int(float64(cpuScore)*0.40 + float64(diskScore)*0.35 + float64(memoryScore)*0.25)`. -/
def overallScore (cpuScore memoryScore diskScore : ℤ) : ℤ :=
  goTrunc ((cpuScore : ℚ) * 0.40 + (diskScore : ℚ) * 0.35 + (memoryScore : ℚ) * 0.25)

/-- `calculateSummary` (report.go lines 67 to 81). -/
def calculateSummary (results : Results) : Summary :=
  let cpuScore := calculateCPUScore results.CPU
  let memoryScore := calculateMemoryScore results.Memory
  let diskScore := calculateDiskScore results.Disk
  { CPUScore := cpuScore
    MemoryScore := memoryScore
    DiskScore := diskScore
    TotalScore := overallScore cpuScore memoryScore diskScore }

/-- `determineVerdict` (report.go lines 164 to 223): tier selection by the
overall score, then the three conditional advisories appended in order. -/
def determineVerdict (score : ℤ) (results : Results) : Verdict :=
  let verdict : Verdict :=
    if score ≥ 80 then
      { OverallScore := score
        ExecutionClient := "Ready"
        ConsensusClient := "Ready"
        Recommendations :=
          ["Your hardware meets Ethereum node requirements.",
           "Both Geth and Nimbus should run well on this system."] }
    else if score ≥ 60 then
      { OverallScore := score
        ExecutionClient := "Marginal"
        ConsensusClient := "Ready"
        Recommendations :=
          ["Consensus client (Nimbus) should work well.",
           "Execution client (Geth) may struggle during high network activity.",
           "Consider using checkpoint sync to reduce initial sync time."] }
    else if score ≥ 40 then
      { OverallScore := score
        ExecutionClient := "Marginal"
        ConsensusClient := "Marginal"
        Recommendations :=
          ["Hardware is below recommended specifications.",
           "Initial sync will be slow (potentially weeks).",
           "Consider using an external execution client RPC."] }
    else
      { OverallScore := score
        ExecutionClient := "Unsuitable"
        ConsensusClient := "Marginal"
        Recommendations :=
          ["Hardware does not meet minimum requirements for execution client.",
           "Consider upgrading to NVMe storage.",
           "A more powerful single-board computer is recommended."] }
  let verdict :=
    if results.Disk.Random.ReadIOPS < 10000 then
      { verdict with Recommendations := verdict.Recommendations ++
          ["Random I/O performance is low. NVMe SSD strongly recommended."] }
    else verdict
  let verdict :=
    if results.CPU.ECDSA.VerificationsPerSecond < 500 then
      { verdict with Recommendations := verdict.Recommendations ++
          ["ECDSA verification is slow. This may cause transaction validation delays."] }
    else verdict
  let verdict :=
    if results.CPU.BLS.VerificationsPerSecond < 100 then
      { verdict with Recommendations := verdict.Recommendations ++
          ["BLS signature verification is slow. Consensus layer may lag."] }
    else verdict
  verdict

/-! ### Time budget allocator, from `internal/benchmark/config.go` -/

/-- One nanosecond times 10^9: the Go constant `time.Second`. -/
def goSecond : ℤ := 1000000000

/-- `benchmark.Config` (only the duration fields matter to the allocator;
`TestDir` and `Verbose` do not affect it). -/
structure Config where
  CPUDuration : ℤ
  MemoryDuration : ℤ
  DiskDuration : ℤ
  deriving Repr, DecidableEq

/-- `benchmark.DefaultConfig` (config.go lines 23 to 31). -/
def DefaultConfig : Config :=
  { CPUDuration := 60 * goSecond
    MemoryDuration := 60 * goSecond
    DiskDuration := 60 * goSecond }

/-- `benchmark.QuickConfig` (config.go lines 33 to 42). -/
def QuickConfig : Config :=
  { CPUDuration := 20 * goSecond
    MemoryDuration := 20 * goSecond
    DiskDuration := 20 * goSecond }

/-- `benchmark.CPUTimeBudget`. -/
structure CPUTimeBudget where
  Keccak256 : ℤ
  ECDSA : ℤ
  BLS : ℤ
  BN256 : ℤ
  deriving Repr, DecidableEq

/-- `Config.GetCPUTimeBudget` (config.go lines 53 to 61): Go division of
`time.Duration` (an `int64`) truncates toward zero. -/
def GetCPUTimeBudget (c : Config) : CPUTimeBudget :=
  { Keccak256 := Int.tdiv (c.CPUDuration * 15) 60
    ECDSA := Int.tdiv (c.CPUDuration * 20) 60
    BLS := Int.tdiv (c.CPUDuration * 15) 60
    BN256 := Int.tdiv (c.CPUDuration * 10) 60 }

/-! ### Probe setup-failure results and rate derivations -/

/-- The six qualitative rating labels listed by the spec. -/
def ratingLabels : List String :=
  ["Excellent", "Good", "Adequate", "Marginal", "Poor", "Error"]

/-- The result returned by `cpu.BenchmarkECDSA` when key generation fails
(secp256k1.go lines 18 to 21): `types.ECDSAResult{Rating: "Error"}`, all
other fields at their Go zero values. -/
def ecdsaSetupFailureResult : ECDSAResult :=
  { SignaturesPerSecond := 0
    VerificationsPerSecond := 0
    RecoveriesPerSecond := 0
    Duration := 0
    Rating := "Error" }

/-- The result returned by `cpu.BenchmarkBN256` when random point generation
fails (bn256.go): `types.BN256Result{Rating: "Error"}`. -/
def bn256SetupFailureResult : BN256Result :=
  { G1AddsPerSecond := 0
    G1ScalarMulsPerSecond := 0
    PairingsPerSecond := 0
    Duration := 0
    Rating := "Error" }

/-- The result returned by `disk.BenchmarkRandom` when opening or truncating
the test file fails (random.go lines 24 to 33):
`types.RandomResult{Rating: "Error: " + err.Error()}`. -/
def randomSetupFailureResult (errMsg : String) : RandomResult :=
  { ReadIOPS := 0
    WriteIOPS := 0
    AvgLatencyUs := 0
    Duration := 0
    Rating := "Error: " ++ errMsg }

/-- The rate derivation of `cpu.BenchmarkKeccak256` (keccak.go lines 58 to 60):
`hashesPerSec := float64(totalHashes) / elapsed.Seconds()` with no guard
against a zero elapsed time. -/
def keccakHashesPerSecond (totalHashes : ℕ) (elapsedSeconds : ℚ) : Option ℚ :=
  goFloatDiv (totalHashes : ℚ) elapsedSeconds

/-- The average-latency derivation of `disk.BenchmarkRandom` (random.go lines
93 to 96): `avgLatencyUs := float64(totalLatency.Microseconds()) /
float64(totalOps)` with `totalOps := readOps + writeOps`, not guarded against
`totalOps == 0`. -/
def randomAvgLatencyUs (totalLatencyUs : ℤ) (readOps writeOps : ℕ) : Option ℚ :=
  goFloatDiv (totalLatencyUs : ℚ) ((readOps + writeOps : ℕ) : ℚ)

/-! ### Decomposition of the advisory list, and a zero-valued result record -/

/-- The tier-specific baseline advisory strings of `determineVerdict`
(report.go lines 171 to 203), keyed by the overall score. -/
def baselineRecommendations (score : ℤ) : List String :=
  if score ≥ 80 then
    ["Your hardware meets Ethereum node requirements.",
     "Both Geth and Nimbus should run well on this system."]
  else if score ≥ 60 then
    ["Consensus client (Nimbus) should work well.",
     "Execution client (Geth) may struggle during high network activity.",
     "Consider using checkpoint sync to reduce initial sync time."]
  else if score ≥ 40 then
    ["Hardware is below recommended specifications.",
     "Initial sync will be slow (potentially weeks).",
     "Consider using an external execution client RPC."]
  else
    ["Hardware does not meet minimum requirements for execution client.",
     "Consider upgrading to NVMe storage.",
     "A more powerful single-board computer is recommended."]

/-- The conditional advisories of `determineVerdict` (report.go lines 205 to
220), each triggered independently by a raw metric threshold, in the fixed
order disk random-read IOPS, ECDSA verification rate, BLS verification
rate. -/
def conditionalRecommendations (results : Results) : List String :=
  (if results.Disk.Random.ReadIOPS < 10000 then
    ["Random I/O performance is low. NVMe SSD strongly recommended."]
   else []) ++
  (if results.CPU.ECDSA.VerificationsPerSecond < 500 then
    ["ECDSA verification is slow. This may cause transaction validation delays."]
   else []) ++
  (if results.CPU.BLS.VerificationsPerSecond < 100 then
    ["BLS signature verification is slow. Consensus layer may lag."]
   else [])

/-- A `Results` record with every numeric field zero and every rating empty,
used to instantiate universally quantified theorems at a concrete input. -/
def zeroResults : Results :=
  { CPU :=
      { Keccak := ⟨0, 0, 0, 0, ""⟩
        ECDSA := ⟨0, 0, 0, 0, ""⟩
        BLS := ⟨0, 0, 0, 0, ""⟩
        BN256 := ⟨0, 0, 0, 0, ""⟩ }
    Memory :=
      { Trie := ⟨0, 0, 0, 0, 0, ""⟩
        Pool := ⟨0, 0, 0, 0, ""⟩
        StateCache := ⟨0, 0, 0, 0, 0, ""⟩ }
    Disk :=
      { Sequential := ⟨0, 0, 0, ""⟩
        Random := ⟨0, 0, 0, 0, ""⟩
        Batch := ⟨0, 0, 0, 0, ""⟩ } }

/-! ### Helper lemmas about `scoreMetric` -/

section ScoreMetricLemmas

variable {v v₁ v₂ poor marginal good excellent : ℚ}

lemma scoreMetric_eq_of_excellent_le (h : excellent ≤ v) :
    scoreMetric v poor marginal good excellent = 100 := by
  simp [scoreMetric, h]

lemma scoreMetric_eq_of_good_le (h1 : good ≤ v) (h2 : v < excellent) :
    scoreMetric v poor marginal good excellent
      = 75 + 25 * (v - good) / (excellent - good) := by
  simp [scoreMetric, h1, not_le.mpr h2]

lemma scoreMetric_eq_of_marginal_le (h1 : marginal ≤ v) (h2 : v < good)
    (h3 : good < excellent) :
    scoreMetric v poor marginal good excellent
      = 50 + 25 * (v - marginal) / (good - marginal) := by
  have hve : v < excellent := h2.trans h3
  simp [scoreMetric, h1, not_le.mpr h2, not_le.mpr hve]

lemma scoreMetric_eq_of_poor_le (h1 : poor ≤ v) (h2 : v < marginal)
    (h3 : marginal < good) (h4 : good < excellent) :
    scoreMetric v poor marginal good excellent
      = 25 + 25 * (v - poor) / (marginal - poor) := by
  have hvg : v < good := h2.trans h3
  have hve : v < excellent := hvg.trans h4
  simp [scoreMetric, h1, not_le.mpr h2, not_le.mpr hvg, not_le.mpr hve]

lemma scoreMetric_eq_of_lt_poor (h1 : v < poor) (h2 : poor < marginal)
    (h3 : marginal < good) (h4 : good < excellent) :
    scoreMetric v poor marginal good excellent = 25 * v / poor := by
  have hvm : v < marginal := h1.trans h2
  have hvg : v < good := hvm.trans h3
  have hve : v < excellent := hvg.trans h4
  simp [scoreMetric, not_le.mpr h1, not_le.mpr hvm, not_le.mpr hvg, not_le.mpr hve]

lemma scoreMetric_ge_75 (hge : good < excellent) (hv : good ≤ v) :
    75 ≤ scoreMetric v poor marginal good excellent := by
  rcases le_or_lt excellent v with h | h
  · rw [scoreMetric_eq_of_excellent_le h]; norm_num
  · rw [scoreMetric_eq_of_good_le hv h]
    have h0 : (0 : ℚ) ≤ 25 * (v - good) / (excellent - good) :=
      div_nonneg (by nlinarith) (by linarith)
    linarith

lemma scoreMetric_ge_50 (hmg : marginal < good) (hge : good < excellent)
    (hv : marginal ≤ v) :
    50 ≤ scoreMetric v poor marginal good excellent := by
  rcases le_or_lt good v with h | h
  · have h75 : (75 : ℚ) ≤ scoreMetric v poor marginal good excellent :=
      scoreMetric_ge_75 hge h
    linarith
  · rw [scoreMetric_eq_of_marginal_le hv h hge]
    have h0 : (0 : ℚ) ≤ 25 * (v - marginal) / (good - marginal) :=
      div_nonneg (by nlinarith) (by linarith)
    linarith

lemma scoreMetric_ge_25 (hpm : poor < marginal) (hmg : marginal < good)
    (hge : good < excellent) (hv : poor ≤ v) :
    25 ≤ scoreMetric v poor marginal good excellent := by
  rcases le_or_lt marginal v with h | h
  · have h50 : (50 : ℚ) ≤ scoreMetric v poor marginal good excellent :=
      scoreMetric_ge_50 hmg hge h
    linarith
  · rw [scoreMetric_eq_of_poor_le hv h hmg hge]
    have h0 : (0 : ℚ) ≤ 25 * (v - poor) / (marginal - poor) :=
      div_nonneg (by nlinarith) (by linarith)
    linarith

lemma scoreMetric_lt_25 (hp : 0 < poor) (hpm : poor < marginal)
    (hmg : marginal < good) (hge : good < excellent) (hv : v < poor) :
    scoreMetric v poor marginal good excellent < 25 := by
  rw [scoreMetric_eq_of_lt_poor hv hpm hmg hge]
  rw [div_lt_iff₀ hp]
  nlinarith

lemma scoreMetric_lt_50 (hp : 0 < poor) (hpm : poor < marginal)
    (hmg : marginal < good) (hge : good < excellent) (hv : v < marginal) :
    scoreMetric v poor marginal good excellent < 50 := by
  rcases le_or_lt poor v with h | h
  · rw [scoreMetric_eq_of_poor_le h hv hmg hge]
    have hlt : 25 * (v - poor) / (marginal - poor) < 25 := by
      rw [div_lt_iff₀ (by linarith : (0 : ℚ) < marginal - poor)]
      nlinarith
    linarith
  · have := scoreMetric_lt_25 hp hpm hmg hge h
    linarith

lemma scoreMetric_lt_75 (hp : 0 < poor) (hpm : poor < marginal)
    (hmg : marginal < good) (hge : good < excellent) (hv : v < good) :
    scoreMetric v poor marginal good excellent < 75 := by
  rcases le_or_lt marginal v with h | h
  · rw [scoreMetric_eq_of_marginal_le h hv hge]
    have hlt : 25 * (v - marginal) / (good - marginal) < 25 := by
      rw [div_lt_iff₀ (by linarith : (0 : ℚ) < good - marginal)]
      nlinarith
    linarith
  · have := scoreMetric_lt_50 hp hpm hmg hge h
    linarith

lemma scoreMetric_lt_100 (hp : 0 < poor) (hpm : poor < marginal)
    (hmg : marginal < good) (hge : good < excellent) (hv : v < excellent) :
    scoreMetric v poor marginal good excellent < 100 := by
  rcases le_or_lt good v with h | h
  · rw [scoreMetric_eq_of_good_le h hv]
    have hlt : 25 * (v - good) / (excellent - good) < 25 := by
      rw [div_lt_iff₀ (by linarith : (0 : ℚ) < excellent - good)]
      nlinarith
    linarith
  · have := scoreMetric_lt_75 hp hpm hmg hge h
    linarith

lemma scoreMetric_le_100 (hp : 0 < poor) (hpm : poor < marginal)
    (hmg : marginal < good) (hge : good < excellent) :
    scoreMetric v poor marginal good excellent ≤ 100 := by
  rcases le_or_lt excellent v with h | h
  · rw [scoreMetric_eq_of_excellent_le h]
  · exact (scoreMetric_lt_100 hp hpm hmg hge h).le

end ScoreMetricLemmas

/-! ### Claim theorems -/

/-- C3: the claim states that for any negative value and valid breakpoints the
scorer returns 0, the final result being clamped to the range 0 to 100. The
source `scoreMetric` has no clamp: at value -4 with breakpoints 1 < 2 < 3 < 4
the last branch returns 25 * (-4) / 1 = -100, not 0. This theorem evaluates
the code at that failing input. -/
theorem scoreMetric_negative_unclamped :
    scoreMetric (-4) 1 2 3 4 = -100 := by
  norm_num [scoreMetric]

/-- C4: for every breakpoint tuple with 0 < poor < marginal < good < excellent,
`scoreMetric` evaluated exactly at the breakpoints returns the band boundaries
25, 50, 75 and 100. -/
theorem scoreMetric_boundary_exact (poor marginal good excellent : ℚ)
    (hp : 0 < poor) (hpm : poor < marginal) (hmg : marginal < good)
    (hge : good < excellent) :
    scoreMetric poor poor marginal good excellent = 25 ∧
    scoreMetric marginal poor marginal good excellent = 50 ∧
    scoreMetric good poor marginal good excellent = 75 ∧
    scoreMetric excellent poor marginal good excellent = 100 := by
  refine ⟨?_, ?_, ?_, ?_⟩
  · rw [scoreMetric_eq_of_poor_le le_rfl hpm hmg hge]; simp
  · rw [scoreMetric_eq_of_marginal_le le_rfl hmg hge]; simp
  · rw [scoreMetric_eq_of_good_le le_rfl hge]; simp
  · rw [scoreMetric_eq_of_excellent_le le_rfl]

/-- Witness for C4 at the Keccak calibration curve from report.go line 88. -/
theorem scoreMetric_boundary_exact_witness :
    (0 : ℚ) < 50000 ∧ (50000 : ℚ) < 100000 ∧ (100000 : ℚ) < 200000 ∧
    (200000 : ℚ) < 500000 ∧
    (scoreMetric 50000 50000 100000 200000 500000 = 25 ∧
     scoreMetric 100000 50000 100000 200000 500000 = 50 ∧
     scoreMetric 200000 50000 100000 200000 500000 = 75 ∧
     scoreMetric 500000 50000 100000 200000 500000 = 100) :=
  ⟨by norm_num, by norm_num, by norm_num, by norm_num,
   scoreMetric_boundary_exact 50000 100000 200000 500000
     (by norm_num) (by norm_num) (by norm_num) (by norm_num)⟩

/-- C5: `scoreMetric` is monotone non-decreasing in its value argument, for
every breakpoint tuple with 0 < poor < marginal < good < excellent and all
values v₁ < v₂. -/
theorem scoreMetric_monotone (v₁ v₂ poor marginal good excellent : ℚ)
    (hp : 0 < poor) (hpm : poor < marginal) (hmg : marginal < good)
    (hge : good < excellent) (hv : v₁ < v₂) :
    scoreMetric v₁ poor marginal good excellent
      ≤ scoreMetric v₂ poor marginal good excellent := by
  rcases le_or_lt excellent v₂ with h2 | h2
  · rw [scoreMetric_eq_of_excellent_le h2]
    exact scoreMetric_le_100 hp hpm hmg hge
  · rcases le_or_lt good v₂ with h2g | h2g
    · rw [scoreMetric_eq_of_good_le h2g h2]
      rcases le_or_lt good v₁ with h1g | h1g
      · rw [scoreMetric_eq_of_good_le h1g (hv.trans h2)]
        have hdiv : 25 * (v₁ - good) / (excellent - good)
            ≤ 25 * (v₂ - good) / (excellent - good) := by
          rw [div_le_div_iff₀ (by linarith) (by linarith)]
          nlinarith
        linarith
      · have h75 := scoreMetric_lt_75 hp hpm hmg hge h1g
        have h0 : (0 : ℚ) ≤ 25 * (v₂ - good) / (excellent - good) :=
          div_nonneg (by nlinarith) (by linarith)
        linarith
    · rcases le_or_lt marginal v₂ with h2m | h2m
      · rw [scoreMetric_eq_of_marginal_le h2m h2g hge]
        rcases le_or_lt marginal v₁ with h1m | h1m
        · rw [scoreMetric_eq_of_marginal_le h1m (hv.trans h2g) hge]
          have hdiv : 25 * (v₁ - marginal) / (good - marginal)
              ≤ 25 * (v₂ - marginal) / (good - marginal) := by
            rw [div_le_div_iff₀ (by linarith) (by linarith)]
            nlinarith
          linarith
        · have h50 := scoreMetric_lt_50 hp hpm hmg hge h1m
          have h0 : (0 : ℚ) ≤ 25 * (v₂ - marginal) / (good - marginal) :=
            div_nonneg (by nlinarith) (by linarith)
          linarith
      · rcases le_or_lt poor v₂ with h2p | h2p
        · rw [scoreMetric_eq_of_poor_le h2p h2m hmg hge]
          rcases le_or_lt poor v₁ with h1p | h1p
          · rw [scoreMetric_eq_of_poor_le h1p (hv.trans h2m) hmg hge]
            have hdiv : 25 * (v₁ - poor) / (marginal - poor)
                ≤ 25 * (v₂ - poor) / (marginal - poor) := by
              rw [div_le_div_iff₀ (by linarith) (by linarith)]
              nlinarith
            linarith
          · have h25 := scoreMetric_lt_25 hp hpm hmg hge h1p
            have h0 : (0 : ℚ) ≤ 25 * (v₂ - poor) / (marginal - poor) :=
              div_nonneg (by nlinarith) (by linarith)
            linarith
        · rw [scoreMetric_eq_of_lt_poor h2p hpm hmg hge,
              scoreMetric_eq_of_lt_poor (hv.trans h2p) hpm hmg hge]
          rw [div_le_div_iff₀ hp hp]
          nlinarith

/-- Witness for C5 at the random-IOPS calibration curve from report.go
line 137, with values 7000 < 30000. -/
theorem scoreMetric_monotone_witness :
    (0 : ℚ) < 5000 ∧ (5000 : ℚ) < 10000 ∧ (10000 : ℚ) < 20000 ∧
    (20000 : ℚ) < 50000 ∧ (7000 : ℚ) < 30000 ∧
    scoreMetric 7000 5000 10000 20000 50000
      ≤ scoreMetric 30000 5000 10000 20000 50000 :=
  ⟨by norm_num, by norm_num, by norm_num, by norm_num, by norm_num,
   scoreMetric_monotone 7000 30000 5000 10000 20000 50000
     (by norm_num) (by norm_num) (by norm_num) (by norm_num) (by norm_num)⟩

/-! ### Helper lemmas about `determineVerdict` -/

lemma determineVerdict_executionClient (score : ℤ) (r : Results) :
    (determineVerdict score r).ExecutionClient =
      (if score ≥ 80 then "Ready"
       else if score ≥ 60 then "Marginal"
       else if score ≥ 40 then "Marginal"
       else "Unsuitable") := by
  simp only [determineVerdict]
  split_ifs <;> rfl

lemma determineVerdict_consensusClient (score : ℤ) (r : Results) :
    (determineVerdict score r).ConsensusClient =
      (if score ≥ 80 then "Ready"
       else if score ≥ 60 then "Ready"
       else if score ≥ 40 then "Marginal"
       else "Marginal") := by
  simp only [determineVerdict]
  split_ifs <;> rfl

/-! ### Remaining claim theorems -/

/-- C1: for category scores cpu, memory, disk each in the range 0 to 100, the
overall score computed by `calculateSummary` (through `overallScore`, the
expression of report.go line 73) equals the floor of
0.40 * cpu + 0.35 * disk + 0.25 * memory — truncation and floor agree on the
nonnegative weighted sum — and lies in the range 0 to 100; the final conjunct
ties `calculateSummary` to `overallScore` for every `Results`. -/
theorem overallScore_floor_bounds (cpu memory disk : ℤ)
    (hc0 : 0 ≤ cpu) (hc1 : cpu ≤ 100) (hm0 : 0 ≤ memory) (hm1 : memory ≤ 100)
    (hd0 : 0 ≤ disk) (hd1 : disk ≤ 100) :
    overallScore cpu memory disk
        = ⌊0.40 * (cpu : ℚ) + 0.35 * (disk : ℚ) + 0.25 * (memory : ℚ)⌋ ∧
    0 ≤ overallScore cpu memory disk ∧ overallScore cpu memory disk ≤ 100 ∧
    ∀ r : Results, (calculateSummary r).TotalScore
        = overallScore (calculateCPUScore r.CPU) (calculateMemoryScore r.Memory)
            (calculateDiskScore r.Disk) := by
  have hcq0 : (0 : ℚ) ≤ (cpu : ℚ) := by exact_mod_cast hc0
  have hcq1 : (cpu : ℚ) ≤ 100 := by exact_mod_cast hc1
  have hmq0 : (0 : ℚ) ≤ (memory : ℚ) := by exact_mod_cast hm0
  have hmq1 : (memory : ℚ) ≤ 100 := by exact_mod_cast hm1
  have hdq0 : (0 : ℚ) ≤ (disk : ℚ) := by exact_mod_cast hd0
  have hdq1 : (disk : ℚ) ≤ 100 := by exact_mod_cast hd1
  have hq0 : (0 : ℚ) ≤ (cpu : ℚ) * 0.40 + (disk : ℚ) * 0.35 + (memory : ℚ) * 0.25 := by
    nlinarith
  have heq : overallScore cpu memory disk
      = ⌊(cpu : ℚ) * 0.40 + (disk : ℚ) * 0.35 + (memory : ℚ) * 0.25⌋ := by
    unfold overallScore goTrunc
    rw [if_pos hq0]
  refine ⟨?_, ?_, ?_, ?_⟩
  · rw [heq]
    congr 1
    ring
  · rw [heq]
    exact Int.floor_nonneg.mpr hq0
  · rw [heq]
    have hle : (cpu : ℚ) * 0.40 + (disk : ℚ) * 0.35 + (memory : ℚ) * 0.25 ≤ 100 := by
      nlinarith
    calc ⌊(cpu : ℚ) * 0.40 + (disk : ℚ) * 0.35 + (memory : ℚ) * 0.25⌋
        ≤ ⌊(100 : ℚ)⌋ := Int.floor_le_floor hle
      _ = 100 := by norm_num
  · intro r
    rfl

/-- Witness for C1 at category scores cpu = 85, memory = 40, disk = 70. -/
theorem overallScore_floor_bounds_witness :
    (0 : ℤ) ≤ 85 ∧ (85 : ℤ) ≤ 100 ∧ (0 : ℤ) ≤ 40 ∧ (40 : ℤ) ≤ 100 ∧
    (0 : ℤ) ≤ 70 ∧ (70 : ℤ) ≤ 100 ∧
    (overallScore 85 40 70
        = ⌊0.40 * ((85 : ℤ) : ℚ) + 0.35 * ((70 : ℤ) : ℚ) + 0.25 * ((40 : ℤ) : ℚ)⌋ ∧
     0 ≤ overallScore 85 40 70 ∧ overallScore 85 40 70 ≤ 100 ∧
     ∀ r : Results, (calculateSummary r).TotalScore
        = overallScore (calculateCPUScore r.CPU) (calculateMemoryScore r.Memory)
            (calculateDiskScore r.Disk)) :=
  ⟨by norm_num, by norm_num, by norm_num, by norm_num, by norm_num, by norm_num,
   overallScore_floor_bounds 85 40 70 (by norm_num) (by norm_num) (by norm_num)
     (by norm_num) (by norm_num) (by norm_num)⟩

/-- C2: `determineVerdict` assigns the two role labels by tier of the overall
score: at least 80 gives Ready and Ready; 60 to 79 gives Marginal and Ready;
40 to 59 gives Marginal and Marginal; below 40 gives Unsuitable and Marginal.
The particular scores 80, 79, 40 and 39 fall in the stated tiers. -/
theorem determineVerdict_tier_labels (score : ℤ) (r : Results) :
    (80 ≤ score →
      (determineVerdict score r).ExecutionClient = "Ready" ∧
      (determineVerdict score r).ConsensusClient = "Ready") ∧
    (60 ≤ score → score ≤ 79 →
      (determineVerdict score r).ExecutionClient = "Marginal" ∧
      (determineVerdict score r).ConsensusClient = "Ready") ∧
    (40 ≤ score → score ≤ 59 →
      (determineVerdict score r).ExecutionClient = "Marginal" ∧
      (determineVerdict score r).ConsensusClient = "Marginal") ∧
    (score ≤ 39 →
      (determineVerdict score r).ExecutionClient = "Unsuitable" ∧
      (determineVerdict score r).ConsensusClient = "Marginal") ∧
    (determineVerdict 80 r).ExecutionClient = "Ready" ∧
    (determineVerdict 79 r).ExecutionClient = "Marginal" ∧
    (determineVerdict 40 r).ExecutionClient = "Marginal" ∧
    (determineVerdict 40 r).ConsensusClient = "Marginal" ∧
    (determineVerdict 39 r).ExecutionClient = "Unsuitable" := by
  refine ⟨?_, ?_, ?_, ?_, ?_, ?_, ?_, ?_, ?_⟩
  · intro h
    rw [determineVerdict_executionClient, determineVerdict_consensusClient]
    constructor <;> · rw [if_pos h]
  · intro h1 h2
    have h80 : ¬ score ≥ 80 := by omega
    rw [determineVerdict_executionClient, determineVerdict_consensusClient]
    constructor <;> · rw [if_neg h80, if_pos h1]
  · intro h1 h2
    have h80 : ¬ score ≥ 80 := by omega
    have h60 : ¬ score ≥ 60 := by omega
    rw [determineVerdict_executionClient, determineVerdict_consensusClient]
    constructor <;> · rw [if_neg h80, if_neg h60, if_pos h1]
  · intro h
    have h80 : ¬ score ≥ 80 := by omega
    have h60 : ¬ score ≥ 60 := by omega
    have h40 : ¬ score ≥ 40 := by omega
    rw [determineVerdict_executionClient, determineVerdict_consensusClient]
    constructor <;> · rw [if_neg h80, if_neg h60, if_neg h40]
  · rw [determineVerdict_executionClient]; norm_num
  · rw [determineVerdict_executionClient]; norm_num
  · rw [determineVerdict_executionClient]; norm_num
  · rw [determineVerdict_consensusClient]; norm_num
  · rw [determineVerdict_executionClient]; norm_num

/-- Witness for C2 at score 80 with the zero-valued results. -/
theorem determineVerdict_tier_labels_witness :
    (80 : ℤ) ≤ 80 ∧
    ((determineVerdict 80 zeroResults).ExecutionClient = "Ready" ∧
     (determineVerdict 80 zeroResults).ConsensusClient = "Ready") :=
  ⟨by norm_num, (determineVerdict_tier_labels 80 zeroResults).1 (by norm_num)⟩

/-- C6: the advisory list of `determineVerdict` is exactly the baseline
advisories of the selected tier followed by the conditional advisories added
when the raw disk random-read IOPS is below 10000, the raw ECDSA verification
rate is below 500, and the raw BLS verification rate is below 100, in that
fixed order, with no deduplication or tier-dependent suppression. -/
theorem determineVerdict_recommendations (score : ℤ) (r : Results) :
    (determineVerdict score r).Recommendations
      = baselineRecommendations score ++ conditionalRecommendations r := by
  simp only [determineVerdict, baselineRecommendations, conditionalRecommendations]
  split_ifs <;> simp

/-- Witness for C6 at score 85 with the zero-valued results, under which all
three conditional advisories trigger. -/
theorem determineVerdict_recommendations_witness :
    (determineVerdict 85 zeroResults).Recommendations
      = baselineRecommendations 85 ++ conditionalRecommendations zeroResults :=
  determineVerdict_recommendations 85 zeroResults

/-- C7: for the default 60-second CPU budget, `GetCPUTimeBudget` yields
exactly 15s, 20s, 15s and 10s; for the quick 20-second budget it yields the
truncated nanosecond values 5s, 6666666666ns, 5s and 3333333333ns, whose sum
differs from the 20-second total. -/
theorem getCPUTimeBudget_allocation :
    (GetCPUTimeBudget DefaultConfig).Keccak256 = 15 * goSecond ∧
    (GetCPUTimeBudget DefaultConfig).ECDSA = 20 * goSecond ∧
    (GetCPUTimeBudget DefaultConfig).BLS = 15 * goSecond ∧
    (GetCPUTimeBudget DefaultConfig).BN256 = 10 * goSecond ∧
    (GetCPUTimeBudget QuickConfig).Keccak256 = 5 * goSecond ∧
    (GetCPUTimeBudget QuickConfig).ECDSA = Int.tdiv (20 * goSecond * 20) 60 ∧
    (GetCPUTimeBudget QuickConfig).ECDSA = 6666666666 ∧
    (GetCPUTimeBudget QuickConfig).BLS = 5 * goSecond ∧
    (GetCPUTimeBudget QuickConfig).BN256 = Int.tdiv (20 * goSecond * 10) 60 ∧
    (GetCPUTimeBudget QuickConfig).BN256 = 3333333333 ∧
    (GetCPUTimeBudget QuickConfig).Keccak256 + (GetCPUTimeBudget QuickConfig).ECDSA
      + (GetCPUTimeBudget QuickConfig).BLS + (GetCPUTimeBudget QuickConfig).BN256
      ≠ QuickConfig.CPUDuration := by
  refine ⟨?_, ?_, ?_, ?_, ?_, ?_, ?_, ?_, ?_, ?_, ?_⟩ <;> decide

/-- C8: the claim states that a probe run with zero iterations or zero
elapsed time reports 0 for each derived rate and average-latency field, never
a division-by-zero artifact. The source of `disk.BenchmarkRandom` divides the
accumulated latency by `totalOps` with no guard: at zero read and zero write
operations the division is 0/0, a NaN artifact (modelled `none`), not 0; the
rate derivation of `cpu.BenchmarkKeccak256` is likewise unguarded against a
zero elapsed time. -/
theorem randomAvgLatency_zero_ops_artifact :
    randomAvgLatencyUs 0 0 0 = none ∧
    randomAvgLatencyUs 0 0 0 ≠ some 0 ∧
    keccakHashesPerSecond 0 0 = none := by
  refine ⟨?_, ?_, ?_⟩
  · simp [randomAvgLatencyUs, goFloatDiv]
  · simp [randomAvgLatencyUs, goFloatDiv]
  · simp [keccakHashesPerSecond, goFloatDiv]

/-- C9 counterexample: the claim states that on probe setup failure the
Rating field is exactly the label Error. The disk random probe instead
returns the label prefixed to the error message (random.go line 25): at the
message "permission denied" the Rating is neither "Error" nor any of the six
labels. -/
theorem randomSetupFailure_rating_counterexample :
    (randomSetupFailureResult "permission denied").Rating ≠ "Error" ∧
    (randomSetupFailureResult "permission denied").Rating ∉ ratingLabels := by
  constructor <;> decide

/-- C9 amended: on setup failure the CPU probes (ECDSA, BN256) return a
zero-rate result whose Rating is exactly "Error", while the disk random probe
returns a zero-rate result whose Rating is "Error: " followed by the error
message, which is never equal to the bare label "Error". -/
theorem setupFailure_ratings_amended (errMsg : String) :
    ecdsaSetupFailureResult.Rating = "Error" ∧
    bn256SetupFailureResult.Rating = "Error" ∧
    ecdsaSetupFailureResult.SignaturesPerSecond = 0 ∧
    ecdsaSetupFailureResult.VerificationsPerSecond = 0 ∧
    ecdsaSetupFailureResult.RecoveriesPerSecond = 0 ∧
    (randomSetupFailureResult errMsg).ReadIOPS = 0 ∧
    (randomSetupFailureResult errMsg).WriteIOPS = 0 ∧
    (randomSetupFailureResult errMsg).Rating = "Error: " ++ errMsg ∧
    (randomSetupFailureResult errMsg).Rating ≠ "Error" := by
  refine ⟨rfl, rfl, rfl, rfl, rfl, rfl, rfl, rfl, ?_⟩
  intro h
  have h2 : ("Error: " ++ errMsg : String) = "Error" := h
  have hlen := congrArg String.length h2
  rw [String.length_append] at hlen
  have h7 : ("Error: " : String).length = 7 := rfl
  have h5 : ("Error" : String).length = 5 := rfl
  rw [h7, h5] at hlen
  omega

/-- Witness for C9 amended at a concrete error message. -/
theorem setupFailure_ratings_amended_witness :
    ecdsaSetupFailureResult.Rating = "Error" ∧
    bn256SetupFailureResult.Rating = "Error" ∧
    ecdsaSetupFailureResult.SignaturesPerSecond = 0 ∧
    ecdsaSetupFailureResult.VerificationsPerSecond = 0 ∧
    ecdsaSetupFailureResult.RecoveriesPerSecond = 0 ∧
    (randomSetupFailureResult "no space left on device").ReadIOPS = 0 ∧
    (randomSetupFailureResult "no space left on device").WriteIOPS = 0 ∧
    (randomSetupFailureResult "no space left on device").Rating
      = "Error: " ++ "no space left on device" ∧
    (randomSetupFailureResult "no space left on device").Rating ≠ "Error" :=
  setupFailure_ratings_amended "no space left on device"

/-- C10: for every overall score and every `Results`, the verdict has at
least the two baseline advisories of its tier (so a non-empty advisory list)
and both role labels are among Ready, Marginal and Unsuitable. -/
theorem determineVerdict_wellformed (score : ℤ) (r : Results) :
    2 ≤ (determineVerdict score r).Recommendations.length ∧
    (determineVerdict score r).ExecutionClient ∈ ["Ready", "Marginal", "Unsuitable"] ∧
    (determineVerdict score r).ConsensusClient ∈ ["Ready", "Marginal", "Unsuitable"] := by
  simp only [determineVerdict]
  split_ifs <;> simp

/-- Witness for C10 at score 50 with the zero-valued results. -/
theorem determineVerdict_wellformed_witness :
    2 ≤ (determineVerdict 50 zeroResults).Recommendations.length ∧
    (determineVerdict 50 zeroResults).ExecutionClient ∈ ["Ready", "Marginal", "Unsuitable"] ∧
    (determineVerdict 50 zeroResults).ConsensusClient ∈ ["Ready", "Marginal", "Unsuitable"] :=
  determineVerdict_wellformed 50 zeroResults

end EthBenchmark
